import Mathlib

/-!
Verification of `video_converter.py` (Bilibili cached-video m4s→mp4 converter).

The file shallowly embeds the script's logic:
* file contents are `List Nat` (byte sequences);
* filenames are `List Char`; `pyStem`, `pySuffix` mirror `pathlib.PurePath`;
* `find_m4s_files` mirrors `VideoConverter.find_m4s_files`;
* the per-folder conversion (`convert_single_folder`) is a state machine
  over failure oracles for each I/O step, tracking which intermediate
  files remain in the source folder;
* the batch driver (`convert_all`) runs over an abstract directory listing.
-/

namespace VC

/-! ### Header stripping (`remove_encryption_header`, lines 32–58)

The source opens the fragment, does `input_file.seek(9)` then
`input_file.read()`, and writes that to a `.temp` file.  In Python binary
mode, seeking past EOF followed by `read()` yields `b''`, so the content
transform is exactly `drop 9` on the byte sequence. -/

/-- Byte-level content transform of `remove_encryption_header`:
`seek(9)` then `read()` returns the bytes from offset 9 on. -/
def remove_encryption_header_bytes (content : List Nat) : List Nat :=
  content.drop 9

/-! ### Filename model (`pathlib.PurePath.stem` / `.suffix`)

`PurePath.suffix` is: let `i` be the index of the last `'.'` in the name;
if `0 < i < len(name) - 1` the suffix is `name[i:]`, else `''`.
`PurePath.stem` is the name with that suffix removed. -/

/-- Index of the last occurrence of `'.'` in the name (`str.rfind('.')`),
`none` when there is no dot. -/
def rfindDot (name : List Char) : Option Nat :=
  (List.range name.length).reverse.find? (fun i => name.getD i ' ' = '.')

/-- `pathlib.PurePath.stem`: the final component without its suffix.
The suffix exists only when the last dot has index `i` with
`0 < i < length - 1`. -/
def pyStem (name : List Char) : List Char :=
  match rfindDot name with
  | none => name
  | some i => if 0 < i ∧ i < name.length - 1 then name.take i else name

/-- `folder.glob("*.m4s")` membership test: the fnmatch translation of
`*.m4s` matches exactly the names ending in `".m4s"`. -/
def is_m4s (name : List Char) : Bool :=
  ".m4s".toList.isSuffixOf name

/-! ### Pairing (`find_m4s_files`, lines 59–95) -/

/-- The classification applied to each file in the loop of
`find_m4s_files`: stem ending `"080"` is the video fragment, stem ending
`"280"` the audio fragment, anything else unknown. -/
inductive Role where
  | video
  | audio
  | unknown
deriving DecidableEq

/-- Role of one fragment file, by the `if`/`elif`/`else` suffix tests of
the loop body (lines 79–88). -/
def roleOf (name : List Char) : Role :=
  if "080".toList.isSuffixOf (pyStem name) then Role.video
  else if "280".toList.isSuffixOf (pyStem name) then Role.audio
  else Role.unknown

/-- One iteration of the loop of `find_m4s_files`: assign the file to the
`video_file` or `audio_file` variable according to its stem suffix
(a later match overwrites an earlier one). -/
def classifyStep (va : Option (List Char) × Option (List Char))
    (file : List Char) : Option (List Char) × Option (List Char) :=
  if "080".toList.isSuffixOf (pyStem file) then (some file, va.2)
  else if "280".toList.isSuffixOf (pyStem file) then (va.1, some file)
  else va

/-- `VideoConverter.find_m4s_files`: list the `*.m4s` files of the folder
(`files` is the folder listing in filesystem order); if there are not
exactly two, return `(None, None)`; otherwise classify each by stem
suffix and return the pair unless a role is unassigned. -/
def find_m4s_files (files : List (List Char)) :
    Option (List Char × List Char) :=
  let m4s := files.filter is_m4s
  if m4s.length ≠ 2 then none
  else
    let va := m4s.foldl classifyStep (none, none)
    match va with
    | (some v, some a) => some (v, a)
    | _ => none

/-! ### Per-folder conversion (`convert_single_folder`, lines 131–181)

The byte contents are irrelevant to the per-folder control flow; what
matters is which step fails and which intermediate files exist in the
source folder.  Each I/O step gets a Boolean oracle (`true` = the
underlying filesystem call succeeds); the intermediate files a folder can
hold are the four named below.  Python exceptions are modelled with
`Except`; an exception that escapes a `try` carries the file state at the
point it was raised. -/

/-- Python exception classes relevant to the script. -/
inductive PyErr where
  | ioError
  | renameError
  | fileNotFoundError
deriving DecidableEq

/-- The two exception classes `merge_video_audio` catches around
`subprocess.run`: `CalledProcessError` (non-zero exit with `check=True`)
and `FileNotFoundError` (ffmpeg missing from PATH). -/
inductive MuxErr where
  | calledProcessError
  | fileNotFound
deriving DecidableEq

/-- The intermediate files `convert_single_folder` can create in the
source folder: the two `.temp` outputs of header stripping and their
`.mp4` renames. -/
inductive TempFile where
  | videoTemp
  | audioTemp
  | videoMp4
  | audioMp4
deriving DecidableEq

/-- Failure oracles for the I/O steps of one folder's conversion, in
program order: pairing, the two header strips, the two renames, the
ffmpeg invocation, and the two final unlinks. -/
structure StepOracle where
  pairOk : Bool
  stripVideoOk : Bool
  stripAudioOk : Bool
  renameVideoOk : Bool
  renameAudioOk : Bool
  mux : Option MuxErr
  cleanupVideoOk : Bool
  cleanupAudioOk : Bool

/-- Abstract folder state: the intermediate files currently present. -/
abbrev Files := List TempFile

/-- `remove_encryption_header` at the step level: its whole body is inside
`try ... except Exception: return None`, so it never raises; on success
the `.temp` file exists and is returned, on failure nothing is produced
(the strip is modelled atomically, matching the §4.1 contract
`strip(path) -> bytes` or failure). -/
def strip_step (ok : Bool) (temp : TempFile) (files : Files) :
    Option TempFile × Files :=
  if ok then (some temp, files ++ [temp]) else (none, files)

/-- `Path.rename`: on success the source file becomes the destination; on
failure it raises, leaving the state unchanged. -/
def rename_step (ok : Bool) (src dst : TempFile) (files : Files) :
    Except (PyErr × Files) Files :=
  if ok then Except.ok (files.erase src ++ [dst])
  else Except.error (PyErr.renameError, files)

/-- `Path.unlink`: on success the file is removed; on failure it raises,
leaving the state unchanged. -/
def unlink_step (ok : Bool) (f : TempFile) (files : Files) :
    Except (PyErr × Files) Files :=
  if ok then Except.ok (files.erase f)
  else Except.error (PyErr.ioError, files)

/-- `VideoConverter.merge_video_audio`: run ffmpeg with `check=True`;
`CalledProcessError` and `FileNotFoundError` are both caught and turned
into `False`; a clean exit returns `True`. -/
def merge_video_audio (mux : Option MuxErr) : Bool :=
  match (match mux with
         | some e => Except.error e
         | none => Except.ok true : Except MuxErr Bool) with
  | Except.ok b => b
  | Except.error MuxErr.calledProcessError => false
  | Except.error MuxErr.fileNotFound => false

/-- `VideoConverter.convert_single_folder`: pair the fragments, strip
both headers, rename both temps to `.mp4` (one `try` block; an exception
returns `False` with the files as they stand), mux, then best-effort
unlink both `.mp4` intermediates (one `try` block; a failure is only
logged).  Returns the success flag together with the intermediate files
left in the source folder; the `Except` layer is the set of exceptions
that would escape the function. -/
def convert_single_folder (o : StepOracle) :
    Except PyErr (Bool × Files) :=
  if !o.pairOk then Except.ok (false, [])
  else
    match strip_step o.stripVideoOk TempFile.videoTemp [] with
    | (none, files₁) => Except.ok (false, files₁)
    | (some _, files₁) =>
      match strip_step o.stripAudioOk TempFile.audioTemp files₁ with
      | (none, files₂) =>
        -- `video_temp.unlink()` on the audio-strip failure path (line 156)
        Except.ok (false, files₂.erase TempFile.videoTemp)
      | (some _, files₂) =>
        match (do
            let f ← rename_step o.renameVideoOk TempFile.videoTemp
                TempFile.videoMp4 files₂
            rename_step o.renameAudioOk TempFile.audioTemp
                TempFile.audioMp4 f) with
        | Except.error (_, files₃) =>
          -- `except Exception: ... return False` (lines 166–168)
          Except.ok (false, files₃)
        | Except.ok files₃ =>
          let success := merge_video_audio o.mux
          -- cleanup `try` block (lines 175–179): a failure skips the rest
          -- of the block and is only logged
          let files₄ :=
            match (do
                let f ← unlink_step o.cleanupVideoOk TempFile.videoMp4 files₃
                unlink_step o.cleanupAudioOk TempFile.audioMp4 f) with
            | Except.ok f => f
            | Except.error (_, f) => f
          Except.ok (success, files₄)

/-! ### Batch driver (`convert_all`, lines 183–210) and `__init__` -/

/-- One entry of `input_dir.iterdir()`. -/
structure Entry where
  name : List Char
  isDir : Bool

/-- The state one run of the batch driver sees: whether the input root
exists, its directory listing in filesystem order, and the per-folder
step outcomes. -/
structure RunState where
  inputExists : Bool
  listing : List Entry
  oracle : List Char → StepOracle

/-- The folders `convert_all` processes: entries of the listing that are
directories and whose name is not `"converted_videos"` (line 199), in
listing order. -/
def eligibleFolders (rs : RunState) : List (List Char) :=
  ((rs.listing.filter
      (fun e => e.isDir && !(e.name == "converted_videos".toList))).map
    Entry.name)

/-- The body of `VideoConverter.convert_all` with both of its counters
exposed: if the input root is missing, return immediately with both
counters at `0`; otherwise visit every eligible folder, incrementing
`total_folders` each time and `success_count` on success.  The pair is
`(success_count, total_folders)`. -/
def convert_all_counts (rs : RunState) : Except PyErr (Nat × Nat) :=
  if !rs.inputExists then Except.ok (0, 0)
  else
    (eligibleFolders rs).foldlM
      (fun (counts : Nat × Nat) name => do
        let r ← convert_single_folder (rs.oracle name)
        pure (if r.1 then (counts.1 + 1, counts.2 + 1)
              else (counts.1, counts.2 + 1)))
      (0, 0)

/-- `VideoConverter.convert_all` as the caller sees it: the source logs
`total_folders` but `return success_count` (line 210) yields only the
first counter. -/
def convert_all (rs : RunState) : Except PyErr Nat :=
  Except.map Prod.fst (convert_all_counts rs)

/-- The filesystem facts `__init__` reads and writes: whether the input
root exists and whether `input_root/converted_videos` exists. -/
structure World where
  inputExists : Bool
  outputDirExists : Bool

/-- `VideoConverter.__init__` (lines 19–30): sets
`output_dir = input_dir / "converted_videos"` and immediately calls
`output_dir.mkdir(exist_ok=True)` — before anything looks at the input
root.  Without `parents=True`, `mkdir` raises `FileNotFoundError` when
`input_dir` itself is missing; with `exist_ok=True` it succeeds whenever
`input_dir` exists (whether or not the output directory already does),
leaving the output directory in place. -/
def init_converter (w : World) : Except PyErr World :=
  if w.inputExists then Except.ok { w with outputDirExists := true }
  else Except.error PyErr.fileNotFoundError

/-- The guard of `convert_all` (lines 190–192): the fail-fast `return 0`
branch is taken exactly when the input root is missing at run time. -/
def fail_fast_taken (rs : RunState) : Bool := !rs.inputExists

/-- A run in which every filesystem step succeeds. -/
def oracleAllOk : StepOracle := ⟨true, true, true, true, true, none, true, true⟩

/-! ### Helper lemmas -/

/-- Two suffixes of the same list that have equal lengths coincide. -/
theorem suffix_eq_of_length_eq {α : Type} {s l₁ l₂ : List α}
    (h₁ : l₁ <:+ s) (h₂ : l₂ <:+ s) (h : l₁.length = l₂.length) : l₁ = l₂ := by
  obtain ⟨t₁, rfl⟩ := h₁
  obtain ⟨t₂, ht⟩ := h₂
  have hl : t₂.length = t₁.length := by
    have h2 := congrArg List.length ht
    simp [List.length_append] at h2
    omega
  exact (List.append_inj_right ht hl).symm

/-- A stem ending in `"280"` cannot also end in `"080"`: both tests look
at the last three characters. -/
theorem not_both_roles {s : List Char} (h : "280".toList <:+ s) :
    ¬ ("080".toList <:+ s) := fun hc =>
  absurd (suffix_eq_of_length_eq hc h (by decide)) (by decide)

/-- Binding a successful `Except` computation applies the continuation. -/
theorem except_ok_bind {ε α β : Type} (a : α) (f : α → Except ε β) :
    (Except.ok a >>= f : Except ε β) = f a := rfl

/-- Binding a pure `Except` computation applies the continuation. -/
theorem except_pure_bind {ε α β : Type} (a : α) (f : α → Except ε β) :
    (pure a >>= f : Except ε β) = f a := rfl

/-! ### Claims about pairing and header stripping -/

/-- Claim C1: for every folder containing exactly two `.m4s` fragment
files, one whose stem ends with `"080"` and one whose stem ends with
`"280"`, `find_m4s_files` succeeds and returns the 080-file as video and
the 280-file as audio, for either enumeration order of the two files. -/
theorem find_m4s_pairs_correctly (files : List (List Char)) (v a : List Char)
    (horder : files.filter is_m4s = [v, a] ∨ files.filter is_m4s = [a, v])
    (hv : "080".toList.isSuffixOf (pyStem v) = true)
    (ha : "280".toList.isSuffixOf (pyStem a) = true) :
    find_m4s_files files = some (v, a) := by
  have hv' : "080".toList <:+ pyStem v := List.isSuffixOf_iff_suffix.mp hv
  have ha' : "280".toList <:+ pyStem a := List.isSuffixOf_iff_suffix.mp ha
  have h080a : ¬ ("080".toList <:+ pyStem a) := not_both_roles ha'
  have hv2 : ['0', '8', '0'] <:+ pyStem v := hv'
  have ha2 : ['2', '8', '0'] <:+ pyStem a := ha'
  have h080a2 : ¬ (['0', '8', '0'] <:+ pyStem a) := h080a
  rcases horder with h | h <;>
    simp [find_m4s_files, h, classifyStep, hv2, ha2, h080a2]

/-- Witness for C1: a concrete folder with fragments `30080.m4s` and
`30280.m4s`, in both enumeration orders. -/
theorem find_m4s_pairs_correctly_witness :
    find_m4s_files ["30080.m4s".toList, "30280.m4s".toList]
        = some ("30080.m4s".toList, "30280.m4s".toList) ∧
    find_m4s_files ["30280.m4s".toList, "30080.m4s".toList]
        = some ("30080.m4s".toList, "30280.m4s".toList) :=
  ⟨find_m4s_pairs_correctly _ _ _ (Or.inl (by decide)) (by decide) (by decide),
   find_m4s_pairs_correctly _ _ _ (Or.inr (by decide)) (by decide) (by decide)⟩

/-- Claim C2: pairing fails whenever the folder does not hold exactly two
`.m4s` files, and with exactly two it fails whenever a role is duplicated
or missing (equal roles, or a file ending in neither suffix); duplicates
are never resolved by a first-wins pick. -/
theorem find_m4s_fails_otherwise (files : List (List Char)) :
    ((files.filter is_m4s).length ≠ 2 → find_m4s_files files = none) ∧
    (∀ f g, files.filter is_m4s = [f, g] →
      (roleOf f = roleOf g ∨ roleOf f = Role.unknown ∨ roleOf g = Role.unknown) →
      find_m4s_files files = none) := by
  constructor
  · intro h
    simp [find_m4s_files, h]
  · intro f g hfg hrole
    by_cases h080f : "080".toList <:+ pyStem f <;>
    by_cases h280f : "280".toList <:+ pyStem f <;>
    by_cases h080g : "080".toList <:+ pyStem g <;>
    by_cases h280g : "280".toList <:+ pyStem g <;>
      simp_all [find_m4s_files, classifyStep, roleOf]

/-- Witness for C2: a folder with a single fragment, one with two video
fragments (duplicate role), and one with a fragment of unknown role. -/
theorem find_m4s_fails_otherwise_witness :
    find_m4s_files ["30080.m4s".toList] = none ∧
    find_m4s_files ["30080.m4s".toList, "40080.m4s".toList] = none ∧
    find_m4s_files ["30080.m4s".toList, "readme.m4s".toList] = none :=
  ⟨(find_m4s_fails_otherwise _).1 (by decide),
   (find_m4s_fails_otherwise _).2 "30080.m4s".toList "40080.m4s".toList
     (by decide) (Or.inl (by decide)),
   (find_m4s_fails_otherwise _).2 "30080.m4s".toList "readme.m4s".toList
     (by decide) (Or.inr (Or.inr (by decide)))⟩

/-- Claim C3: stripping a `9 + N` byte file yields exactly the last `N`
bytes, byte for byte. -/
theorem strip_yields_last_n_bytes (header body : List Nat)
    (h : header.length = 9) :
    remove_encryption_header_bytes (header ++ body) = body := by
  simp only [remove_encryption_header_bytes]
  rw [← h, List.drop_left]

/-- Witness for C3: a concrete 9-byte header followed by two bytes. -/
theorem strip_yields_last_n_bytes_witness :
    remove_encryption_header_bytes ([0, 1, 2, 3, 4, 5, 6, 7, 8] ++ [42, 43])
      = [42, 43] :=
  strip_yields_last_n_bytes _ _ (by decide)

/-- Claim C4: stripping a file shorter than 9 bytes yields a defined,
empty output (`seek(9)` past EOF followed by `read()` returns no bytes). -/
theorem strip_short_file_empty (content : List Nat)
    (h : content.length < 9) :
    remove_encryption_header_bytes content = [] := by
  simp only [remove_encryption_header_bytes]
  exact List.drop_eq_nil_of_le (Nat.le_of_lt h)

/-- Witness for C4: a concrete 3-byte file strips to empty. -/
theorem strip_short_file_empty_witness :
    remove_encryption_header_bytes [1, 2, 3] = [] :=
  strip_short_file_empty _ (by decide)

/-! ### Claims about the per-folder conversion -/

/-- Every branch of `convert_single_folder` ends in `Except.ok`: all the
exceptions its steps can raise are caught inside the function. -/
theorem convert_single_folder_isOk (o : StepOracle) :
    ∃ r, convert_single_folder o = Except.ok r := by
  obtain ⟨p, sv, sa, rv, ra, m, cv, ca⟩ := o
  cases p <;> cases sv <;> cases sa <;> cases rv <;> cases ra <;>
    cases cv <;> cases ca <;> exact ⟨_, rfl⟩

/-- The counting loop of `convert_all` visits every folder of the list:
it always terminates in `Except.ok` with the attempted counter increased
by the length of the list, whatever the per-folder outcomes. -/
theorem counts_fold_ok (rs : RunState) :
    ∀ (names : List (List Char)) (acc : Nat × Nat), ∃ s,
      (names.foldlM (fun (counts : Nat × Nat) name => do
          let r ← convert_single_folder (rs.oracle name)
          pure (if r.1 then (counts.1 + 1, counts.2 + 1)
                else (counts.1, counts.2 + 1))) acc : Except PyErr (Nat × Nat))
        = Except.ok (s, acc.2 + names.length) := by
  intro names
  induction names with
  | nil => exact fun acc => ⟨acc.1, rfl⟩
  | cons n ns ih =>
    intro acc
    obtain ⟨r, hr⟩ := convert_single_folder_isOk (rs.oracle n)
    cases hb : r.1
    · obtain ⟨s, hs⟩ := ih (acc.1, acc.2 + 1)
      refine ⟨s, ?_⟩
      rw [List.foldlM_cons, hr, except_ok_bind, except_pure_bind, hb]
      have harith : acc.2 + 1 + ns.length = acc.2 + (ns.length + 1) := by omega
      rw [harith] at hs
      simpa using hs
    · obtain ⟨s, hs⟩ := ih (acc.1 + 1, acc.2 + 1)
      refine ⟨s, ?_⟩
      rw [List.foldlM_cons, hr, except_ok_bind, except_pure_bind, hb]
      have harith : acc.2 + 1 + ns.length = acc.2 + (ns.length + 1) := by omega
      rw [harith] at hs
      simpa using hs

/-- Claim C6: when stripping the video fragment succeeded and stripping
the audio fragment then fails, the already-produced video temporary file
is deleted (line 156) before the folder is reported as failed, and no
intermediate file is left behind. -/
theorem audio_strip_failure_cleans_video_temp (o : StepOracle)
    (hp : o.pairOk = true) (hv : o.stripVideoOk = true)
    (ha : o.stripAudioOk = false) :
    convert_single_folder o = Except.ok (false, []) := by
  obtain ⟨p, sv, sa, rv, ra, m, cv, ca⟩ := o
  cases hp; cases hv; cases ha
  rfl

/-- Witness for C6: a concrete oracle whose audio strip fails after a
successful video strip. -/
theorem audio_strip_failure_cleans_video_temp_witness :
    convert_single_folder ⟨true, true, false, true, true, none, true, true⟩
      = Except.ok (false, []) :=
  audio_strip_failure_cleans_video_temp _ rfl rfl rfl

/-- Claim C7 is refuted: when pairing and both strips succeed and the
audio rename then fails, `convert_single_folder` reports failure but
leaves the renamed video `.mp4` and the audio `.temp` in the source
folder — the earlier steps' intermediates are not removed. -/
theorem rename_failure_leaves_orphans :
    convert_single_folder ⟨true, true, true, true, false, none, true, true⟩
        = Except.ok (false, [TempFile.audioTemp, TempFile.videoMp4]) ∧
    ([TempFile.audioTemp, TempFile.videoMp4] : Files) ≠ [] :=
  ⟨rfl, by decide⟩

/-- Claim C7 amended: after a failed strip step every intermediate file
created by the folder's earlier steps has been removed, but after a
failed rename step the intermediates are left in place (no rollback): a
failed video rename leaves both `.temp` files, a failed audio rename
leaves the renamed video `.mp4` and the audio `.temp`. -/
theorem cleanup_on_failure_paths (o : StepOracle) (hp : o.pairOk = true) :
    (o.stripVideoOk = false → convert_single_folder o = Except.ok (false, [])) ∧
    (o.stripVideoOk = true → o.stripAudioOk = false →
      convert_single_folder o = Except.ok (false, [])) ∧
    (o.stripVideoOk = true → o.stripAudioOk = true → o.renameVideoOk = false →
      convert_single_folder o
        = Except.ok (false, [TempFile.videoTemp, TempFile.audioTemp])) ∧
    (o.stripVideoOk = true → o.stripAudioOk = true → o.renameVideoOk = true →
      o.renameAudioOk = false →
      convert_single_folder o
        = Except.ok (false, [TempFile.audioTemp, TempFile.videoMp4])) := by
  obtain ⟨p, sv, sa, rv, ra, m, cv, ca⟩ := o
  cases hp
  cases sv <;> cases sa <;> cases rv <;> cases ra <;>
    refine ⟨?_, ?_, ?_, ?_⟩ <;> intros <;> first | rfl | simp_all

/-- Witness for C7 amended: a concrete oracle whose video rename fails
leaves exactly the two `.temp` files. -/
theorem cleanup_on_failure_paths_witness :
    convert_single_folder ⟨true, true, true, false, true, none, true, true⟩
      = Except.ok (false, [TempFile.videoTemp, TempFile.audioTemp]) :=
  (cleanup_on_failure_paths _ rfl).2.2.1 rfl rfl rfl

/-- Claim C9: `convert_single_folder` settles every per-folder error of
the taxonomy (pairing, strip I/O, rename, muxer not found, muxer
non-zero exit) into a Boolean result and never lets an exception escape;
consequently the batch loop attempts every eligible folder, whatever the
per-folder outcomes. -/
theorem convert_single_folder_never_throws :
    (∀ o, ∃ r, convert_single_folder o = Except.ok r) ∧
    (∀ rs : RunState, rs.inputExists = true →
      ∃ s, convert_all_counts rs = Except.ok (s, (eligibleFolders rs).length)) := by
  refine ⟨convert_single_folder_isOk, ?_⟩
  intro rs h
  obtain ⟨s, hs⟩ := counts_fold_ok rs (eligibleFolders rs) (0, 0)
  refine ⟨s, ?_⟩
  rw [convert_all_counts, h]
  simpa using hs

/-- Witness for C9: a run over two folders, one of which fails pairing,
still attempts both. -/
theorem convert_single_folder_never_throws_witness :
    (∃ r, convert_single_folder ⟨false, true, true, true, true, none, true, true⟩
        = Except.ok r) ∧
    (∃ s, convert_all_counts
        ⟨true, [⟨"A".toList, true⟩, ⟨"B".toList, true⟩], fun _ => oracleAllOk⟩
      = Except.ok (s, (eligibleFolders
          ⟨true, [⟨"A".toList, true⟩, ⟨"B".toList, true⟩],
            fun _ => oracleAllOk⟩).length)) :=
  ⟨convert_single_folder_never_throws.1 _,
   convert_single_folder_never_throws.2 _ rfl⟩

/-! ### Claims about the batch driver and `__init__` -/

/-- An oracle whose folder fails at the pairing step. -/
def oraclePairFail : StepOracle := ⟨false, true, true, true, true, none, true, true⟩

/-- A run over a root with no subfolders. -/
def rsNoFolders : RunState := ⟨true, [], fun _ => oraclePairFail⟩

/-- A run over a root with one subfolder whose pairing fails. -/
def rsOneFailing : RunState :=
  ⟨true, [⟨"A".toList, true⟩], fun _ => oraclePairFail⟩

/-- Claim C5 is refuted: `convert_all` does not return the pair
`(succeeded_count, attempted_count)` — it returns the single
`success_count`.  Two runs with different attempted counts (`0` folders
versus `1` failing folder) return the same value `Except.ok 0`, so the
returned value cannot carry the attempted count. -/
theorem convert_all_not_a_pair :
    convert_all rsNoFolders = convert_all rsOneFailing ∧
    convert_all rsNoFolders = Except.ok 0 ∧
    convert_all_counts rsNoFolders = Except.ok (0, 0) ∧
    convert_all_counts rsOneFailing = Except.ok (0, 1) :=
  ⟨rfl, rfl, rfl, rfl⟩

/-- Claim C5 amended: `convert_all` returns only `success_count` (the
attempted count is logged, not returned), and when the input root does
not exist it returns `0` with both internal counters at `0`, i.e. no
folder was processed. -/
theorem convert_all_fail_fast (rs : RunState)
    (h : rs.inputExists = false) :
    convert_all rs = Except.ok 0 ∧
    convert_all_counts rs = Except.ok (0, 0) ∧
    (∀ (rs2 : RunState) (s t : Nat),
      convert_all_counts rs2 = Except.ok (s, t) →
      convert_all rs2 = Except.ok s) := by
  refine ⟨?_, ?_, ?_⟩
  · rw [convert_all, convert_all_counts, h]
    rfl
  · rw [convert_all_counts, h]
    rfl
  · intro rs2 s t h2
    rw [convert_all, h2]
    rfl

/-- Witness for C5 amended: a missing input root with one listed
subfolder yields `0` and counters `(0, 0)`. -/
theorem convert_all_fail_fast_witness :
    convert_all ⟨false, [⟨"A".toList, true⟩], fun _ => oracleAllOk⟩
        = Except.ok 0 ∧
    convert_all_counts ⟨false, [⟨"A".toList, true⟩], fun _ => oracleAllOk⟩
        = Except.ok (0, 0) :=
  ⟨(convert_all_fail_fast _ rfl).1, (convert_all_fail_fast _ rfl).2.1⟩

/-- Claim C8: on every run the subdirectory named `converted_videos` is
excluded from the folders processed — whatever the listing holds, so in
particular on a second run where the output directory already exists. -/
theorem output_dir_never_processed (rs : RunState) :
    (eligibleFolders rs).contains "converted_videos".toList = false := by
  rw [Bool.eq_false_iff]
  intro hc
  have hmem := List.elem_iff.mp hc
  simp only [eligibleFolders, List.mem_map] at hmem
  obtain ⟨e, he, hname⟩ := hmem
  rw [List.mem_filter] at he
  have h2 := he.2
  rw [hname] at h2
  simp at h2

/-- Claim C10: `__init__` creates the output directory before anything
checks that the input root exists, so construction itself raises
`FileNotFoundError` whenever the root is missing; when construction
succeeds the root existed, hence the fail-fast branch of `convert_all`
is not taken unless the root's existence changed between construction
and the run. -/
theorem init_raises_on_missing_root (w : World) :
    (w.inputExists = false →
      init_converter w = Except.error PyErr.fileNotFoundError) ∧
    (∀ w', init_converter w = Except.ok w' →
      w'.outputDirExists = true ∧ w.inputExists = true) ∧
    (∀ (rs : RunState) (w' : World), init_converter w = Except.ok w' →
      rs.inputExists = w.inputExists → fail_fast_taken rs = false) := by
  obtain ⟨i, od⟩ := w
  cases i <;> simp [init_converter, fail_fast_taken]

/-- Witness for C10: construction on a missing root raises; after a
successful construction with the root still present, the fail-fast
branch is not taken. -/
theorem init_raises_on_missing_root_witness :
    init_converter ⟨false, false⟩ = Except.error PyErr.fileNotFoundError ∧
    fail_fast_taken ⟨true, [], fun _ => oracleAllOk⟩ = false :=
  ⟨(init_raises_on_missing_root ⟨false, false⟩).1 rfl,
   (init_raises_on_missing_root ⟨true, false⟩).2.2
     ⟨true, [], fun _ => oracleAllOk⟩ ⟨true, true⟩ rfl rfl⟩

end VC
